import Mathlib

/-!
Shallow embedding of `demos/ATSAMA5D2/RT-SAMA5D2-XPLAINED-HTTPS-NSEC/daemons/tssockskel.c`
(ChibiOS trusted-side sockets skeleton daemon).

Each C function that touches the trust boundary is modelled as a Lean function
producing a list of observable events (mutex lock/unlock, service invocations
carrying a snapshot of the request descriptor, network-stack primitive calls,
heap allocation and release, FIFO pool operations), the final descriptor state,
and a flag saying whether execution halted in `chDbgAssert` (which fires when a
service invocation reports `SMC_SVC_BUSY`).

Addresses of local variables taken with `&` in the C code are modelled
symbolically (`Val.addr`), since their numeric values are not observable at
this level; scalar words supplied by the untrusted side are `Val.word`.
-/

namespace TsSockSkel

/-- The `req` phase field of `skel_req_t`: `SKEL_REQ_CPYPRMS`, `SKEL_REQ_PUTRES`,
`SKEL_REQ_READY`, `SKEL_REQ_GETOP`. -/
inductive Phase
  | CPYPRMS
  | PUTRES
  | READY
  | GETOP
deriving DecidableEq, Repr

/-- Return status of `tsInvokeServiceNoYield`: an ordinary `msg_t` value,
`SMC_SVC_BUSY`, or `SMC_SVC_NHND` (no pending operation). -/
inductive Status
  | svcOk (v : Nat)
  | busy
  | nhnd
deriving DecidableEq, Repr

/-- The local variables whose addresses the handlers write into descriptor
parameter slots as marshaling targets. -/
inductive LocalVar
  | sockaddrV
  | heapBufV
  | readsetV
  | writesetV
  | exceptsetV
  | timevalV
  | nodenameV
  | servnameV
  | hintsV
  | resV
  | aiV
deriving DecidableEq, Repr

/-- `sizeof` a pointer on the 32-bit ARM target. -/
def sizeofPtr : Nat := 4

/-- `sizeof (fd_set)` on the target (representative constant; the claims only
use that it is the value stored, not its magnitude). -/
def sizeofFdSet : Nat := 8

/-- Declared byte size of each local marshaling target, from the C
declarations: `char nodename`, `char servname` are single bytes;
`struct sockaddr` is 16 bytes; `struct addrinfo *res` is a pointer;
`heapBufV` is a dynamically sized heap buffer (size not fixed, recorded as 0). -/
def LocalVar.byteSize : LocalVar → Nat
  | .sockaddrV => 16
  | .heapBufV => 0
  | .readsetV => sizeofFdSet
  | .writesetV => sizeofFdSet
  | .exceptsetV => sizeofFdSet
  | .timevalV => 8
  | .nodenameV => 1
  | .servnameV => 1
  | .hintsV => 32
  | .resV => sizeofPtr
  | .aiV => 32

/-- A 32-bit word stored in a descriptor parameter slot: either a scalar
supplied by the untrusted side or the address of a trusted local variable. -/
inductive Val
  | word (n : Nat)
  | addr (v : LocalVar)
deriving DecidableEq, Repr

/-- Scalar reading of a slot, as in the C casts `(int)skreqp->stub_op_p[i]`.
The numeric value of a pointer cast is not modelled (the handlers under the
spec read these slots only where the remote supplied scalars). -/
def Val.toNat : Val → Nat
  | .word n => n
  | .addr _ => 0

/-- The request descriptor `skel_req_t`: operation code, the five parameter
slots `stub_op_p[0..4]` (fields `p0..p4`), the five parallel size fields
`stub_op_p_sz[0..4]` (fields `sz0..sz4`), the protocol phase `req`, and the
result word `stub_op_result`. -/
structure SkelReq where
  stub_op_code : Nat
  p0 : Val
  p1 : Val
  p2 : Val
  p3 : Val
  p4 : Val
  sz0 : Nat
  sz1 : Nat
  sz2 : Nat
  sz3 : Nat
  sz4 : Nat
  req : Phase
  stub_op_result : Nat
deriving DecidableEq, Repr

/-- A call to a network-stack primitive together with the argument values the
handler passed (addresses of locals appear symbolically). -/
inductive NetPrim
  | socket (domain typ proto : Nat)
  | connect (s : Nat) (name : Val) (namelen : Nat)
  | close (s : Nat)
  | recv (s : Nat) (mem : Val) (len : Nat) (flags : Nat)
  | send (s : Nat) (dataptr : Val) (size : Nat) (flags : Nat)
  | select (maxfdp1 : Nat) (rs ws es tv : Val)
  | bind (s : Nat) (name : Val) (namelen : Nat)
  | listen (s backlog : Nat)
  | write (s : Nat) (dataptr : Val) (size : Nat)
  | read (s : Nat) (mem : Val) (len : Nat)
  | getaddrinfo (nodename servname hints res : Val)
  | freeaddrinfo (ai : Val)
deriving DecidableEq, Repr

/-- Observable events of the daemon code. `invoke` records a call to
`tsInvokeServiceNoYield` on the shared `tsStubsService` handle, with the
descriptor snapshot passed and the status returned; `invokeDiscovery` is the
one startup call on the `TS_HND_DISCOVERY` handle. -/
inductive Event
  | mtxLock
  | mtxUnlock
  | invoke (ph : Phase) (d : SkelReq) (st : Status)
  | invokeDiscovery
  | assertBusyFail
  | heapAlloc (len : Nat) (ok : Bool)
  | heapFree
  | netCall (pr : NetPrim) (ret : Nat)
  | fifoReturn
  | fifoTake
  | fifoSend
  | fifoRecvMsg
  | evtRegister
deriving DecidableEq, Repr

/-- Environment choices resolved by the outside world during one handler run:
the statuses returned by the copy-in and copy-out invocations, whether
`chHeapAlloc` succeeds, and the value returned by the network primitive. -/
structure Env where
  cpySt : Status
  putSt : Status
  allocOk : Bool
  netRet : Nat
deriving DecidableEq, Repr

/-- `ENOMEM` as used by `l_recv`/`l_send`/`l_write`/`l_read` on allocation
failure (lwIP errno value). -/
def ENOMEM : Nat := 12

/-- Result of running a piece of daemon code: the event trace, the final
descriptor, and whether execution halted in `chDbgAssert`. -/
abbrev HRes := List Event × SkelReq × Bool

/-- `paramsInFromRemote`: sets `req := SKEL_REQ_CPYPRMS`, locks
`tsStubsServiceMtx`, invokes the stubs service, asserts the status is not
`SMC_SVC_BUSY`, unlocks. On BUSY the assertion halts execution before the
unlock. -/
def paramsInFromRemote (st : Status) (d : SkelReq) : HRes :=
  let d1 := { d with req := Phase.CPYPRMS }
  if st = Status.busy then
    ([Event.mtxLock, Event.invoke Phase.CPYPRMS d1 st, Event.assertBusyFail], d1, true)
  else
    ([Event.mtxLock, Event.invoke Phase.CPYPRMS d1 st, Event.mtxUnlock], d1, false)

/-- `returnToRemote`: stores the result, sets `req := SKEL_REQ_PUTRES`, locks,
invokes the stubs service, asserts not BUSY, unlocks, and returns the
descriptor slot to the pool with `chFifoReturnObject`. On BUSY the assertion
halts before the unlock and the slot is never returned. -/
def returnToRemote (st : Status) (d : SkelReq) (res : Nat) : HRes :=
  let d1 := { d with stub_op_result := res, req := Phase.PUTRES }
  if st = Status.busy then
    ([Event.mtxLock, Event.invoke Phase.PUTRES d1 st, Event.assertBusyFail], d1, true)
  else
    ([Event.mtxLock, Event.invoke Phase.PUTRES d1 st, Event.mtxUnlock, Event.fifoReturn], d1, false)

/-- `l_socket`: calls `socket` on slots 0..2 and reports the result. -/
def l_socket (env : Env) (d : SkelReq) : HRes :=
  let result := env.netRet
  let ev := Event.netCall (NetPrim.socket d.p0.toNat d.p1.toNat d.p2.toNat) result
  let r := returnToRemote env.putSt d result
  (ev :: r.1, r.2)

/-- `l_connect`: reads `s` from slot 0, writes `&sockaddr` into slot 1, reads
`socklen` from slot 2, copies the `sockaddr` in, calls `connect`, reports. -/
def l_connect (env : Env) (d : SkelReq) : HRes :=
  let s := d.p0.toNat
  let d1 := { d with p1 := Val.addr LocalVar.sockaddrV }
  let socklen := d1.p2.toNat
  let c := paramsInFromRemote env.cpySt d1
  if c.2.2 then c
  else
    let result := env.netRet
    let ev := Event.netCall (NetPrim.connect s (Val.addr LocalVar.sockaddrV) socklen) result
    let r := returnToRemote env.putSt c.2.1 result
    (c.1 ++ ev :: r.1, r.2)

/-- `l_close`: calls `close` on slot 0 and reports the result. -/
def l_close (env : Env) (d : SkelReq) : HRes :=
  let result := env.netRet
  let ev := Event.netCall (NetPrim.close d.p0.toNat) result
  let r := returnToRemote env.putSt d result
  (ev :: r.1, r.2)

/-- `l_recv`: allocates a buffer of the length in slot 2; on failure reports
`ENOMEM`; on success calls `recv`, stores the byte count in size field 1 and
the buffer address in slot 1, reports, and frees the buffer after
`returnToRemote` returns. -/
def l_recv (env : Env) (d : SkelReq) : HRes :=
  let len := d.p2.toNat
  if env.allocOk then
    let result := env.netRet
    let nev := Event.netCall
      (NetPrim.recv d.p0.toNat (Val.addr LocalVar.heapBufV) len d.p3.toNat) result
    let d1 := { d with sz1 := result, p1 := Val.addr LocalVar.heapBufV }
    let r := returnToRemote env.putSt d1 result
    (Event.heapAlloc len true :: nev :: r.1 ++ (if r.2.2 then [] else [Event.heapFree]),
      r.2)
  else
    let r := returnToRemote env.putSt d ENOMEM
    (Event.heapAlloc len false :: r.1, r.2)

/-- `l_send`: allocates a buffer of the size in slot 2; on failure reports
`ENOMEM`; on success writes the buffer address into slot 1, copies the data
in, calls `send`, frees the buffer, then reports (slot 1 still holds the freed
buffer address during the PUTRES invocation). -/
def l_send (env : Env) (d : SkelReq) : HRes :=
  let size := d.p2.toNat
  if env.allocOk then
    let d1 := { d with p1 := Val.addr LocalVar.heapBufV }
    let c := paramsInFromRemote env.cpySt d1
    if c.2.2 then (Event.heapAlloc size true :: c.1, c.2)
    else
      let result := env.netRet
      let nev := Event.netCall
        (NetPrim.send c.2.1.p0.toNat (Val.addr LocalVar.heapBufV) size c.2.1.p3.toNat) result
      let r := returnToRemote env.putSt c.2.1 result
      (Event.heapAlloc size true :: c.1 ++ nev :: Event.heapFree :: r.1, r.2)
  else
    let r := returnToRemote env.putSt d ENOMEM
    (Event.heapAlloc size false :: r.1, r.2)

/-- `l_select`: writes `sizeof (fd_set)` into size fields 1..3 and the
addresses of the local fd sets and timeout into slots 1..4, copies them in,
calls `select`, reports. -/
def l_select (env : Env) (d : SkelReq) : HRes :=
  let maxfdpl := d.p0.toNat
  let d1 := { d with
    sz1 := sizeofFdSet, sz2 := sizeofFdSet, sz3 := sizeofFdSet,
    p1 := Val.addr LocalVar.readsetV, p2 := Val.addr LocalVar.writesetV,
    p3 := Val.addr LocalVar.exceptsetV, p4 := Val.addr LocalVar.timevalV }
  let c := paramsInFromRemote env.cpySt d1
  if c.2.2 then c
  else
    let result := env.netRet
    let ev := Event.netCall
      (NetPrim.select maxfdpl (Val.addr LocalVar.readsetV) (Val.addr LocalVar.writesetV)
        (Val.addr LocalVar.exceptsetV) (Val.addr LocalVar.timevalV)) result
    let r := returnToRemote env.putSt c.2.1 result
    (c.1 ++ ev :: r.1, r.2)

/-- `l_bind`: same shape as `l_connect`, calling `bind`. -/
def l_bind (env : Env) (d : SkelReq) : HRes :=
  let s := d.p0.toNat
  let d1 := { d with p1 := Val.addr LocalVar.sockaddrV }
  let socklen := d1.p2.toNat
  let c := paramsInFromRemote env.cpySt d1
  if c.2.2 then c
  else
    let result := env.netRet
    let ev := Event.netCall (NetPrim.bind s (Val.addr LocalVar.sockaddrV) socklen) result
    let r := returnToRemote env.putSt c.2.1 result
    (c.1 ++ ev :: r.1, r.2)

/-- `l_listen`: calls `listen` on slots 0 and 1 and reports the result. -/
def l_listen (env : Env) (d : SkelReq) : HRes :=
  let result := env.netRet
  let ev := Event.netCall (NetPrim.listen d.p0.toNat d.p1.toNat) result
  let r := returnToRemote env.putSt d result
  (ev :: r.1, r.2)

/-- `l_write`: same shape as `l_send` without the flags argument. -/
def l_write (env : Env) (d : SkelReq) : HRes :=
  let size := d.p2.toNat
  if env.allocOk then
    let d1 := { d with p1 := Val.addr LocalVar.heapBufV }
    let c := paramsInFromRemote env.cpySt d1
    if c.2.2 then (Event.heapAlloc size true :: c.1, c.2)
    else
      let result := env.netRet
      let nev := Event.netCall
        (NetPrim.write c.2.1.p0.toNat (Val.addr LocalVar.heapBufV) size) result
      let r := returnToRemote env.putSt c.2.1 result
      (Event.heapAlloc size true :: c.1 ++ nev :: Event.heapFree :: r.1, r.2)
  else
    let r := returnToRemote env.putSt d ENOMEM
    (Event.heapAlloc size false :: r.1, r.2)

/-- `l_read`: same shape as `l_recv` without the flags argument. -/
def l_read (env : Env) (d : SkelReq) : HRes :=
  let len := d.p2.toNat
  if env.allocOk then
    let result := env.netRet
    let nev := Event.netCall
      (NetPrim.read d.p0.toNat (Val.addr LocalVar.heapBufV) len) result
    let d1 := { d with sz1 := result, p1 := Val.addr LocalVar.heapBufV }
    let r := returnToRemote env.putSt d1 result
    (Event.heapAlloc len true :: nev :: r.1 ++ (if r.2.2 then [] else [Event.heapFree]),
      r.2)
  else
    let r := returnToRemote env.putSt d ENOMEM
    (Event.heapAlloc len false :: r.1, r.2)

/-- `l_getaddrinfo`: writes the addresses of the single-byte locals `nodename`
and `servname` into slots 0 and 1, `&hints` into slot 2, sets size field 3 to
`sizeof (res)` (a pointer) and slot 3 to `&res`, copies in, calls
`getaddrinfo`, reports. -/
def l_getaddrinfo (env : Env) (d : SkelReq) : HRes :=
  let d1 := { d with
    p0 := Val.addr LocalVar.nodenameV, p1 := Val.addr LocalVar.servnameV,
    p2 := Val.addr LocalVar.hintsV, sz3 := sizeofPtr, p3 := Val.addr LocalVar.resV }
  let c := paramsInFromRemote env.cpySt d1
  if c.2.2 then c
  else
    let result := env.netRet
    let ev := Event.netCall
      (NetPrim.getaddrinfo (Val.addr LocalVar.nodenameV) (Val.addr LocalVar.servnameV)
        (Val.addr LocalVar.hintsV) (Val.addr LocalVar.resV)) result
    let r := returnToRemote env.putSt c.2.1 result
    (c.1 ++ ev :: r.1, r.2)

/-- `l_freeaddrinfo`: writes `&ai` into slot 0, copies in, calls
`freeaddrinfo` (void), reports the fixed result 0. -/
def l_freeaddrinfo (env : Env) (d : SkelReq) : HRes :=
  let d1 := { d with p0 := Val.addr LocalVar.aiV }
  let c := paramsInFromRemote env.cpySt d1
  if c.2.2 then c
  else
    let ev := Event.netCall (NetPrim.freeaddrinfo (Val.addr LocalVar.aiV)) 0
    let r := returnToRemote env.putSt c.2.1 0
    (c.1 ++ ev :: r.1, r.2)

/-- Modelled from the spec: the `STUB_OP_*` operation codes live in
`tssockskel.h`, which is not among the sources; the spec fixes a closed set of
twelve operation codes (open-socket, connect, close, receive, send, select,
bind, listen, write, read, resolve-address, release-resolved-address). The
dispatcher only compares codes for equality, so representative distinct
numeric values are used. -/
def STUB_OP_SOCKET : Nat := 0

/-- Modelled from the spec: see `STUB_OP_SOCKET`. -/
def STUB_OP_CONNECT : Nat := 1

/-- Modelled from the spec: see `STUB_OP_SOCKET`. -/
def STUB_OP_CLOSE : Nat := 2

/-- Modelled from the spec: see `STUB_OP_SOCKET`. -/
def STUB_OP_RECV : Nat := 3

/-- Modelled from the spec: see `STUB_OP_SOCKET`. -/
def STUB_OP_SEND : Nat := 4

/-- Modelled from the spec: see `STUB_OP_SOCKET`. -/
def STUB_OP_SELECT : Nat := 5

/-- Modelled from the spec: see `STUB_OP_SOCKET`. -/
def STUB_OP_BIND : Nat := 6

/-- Modelled from the spec: see `STUB_OP_SOCKET`. -/
def STUB_OP_LISTEN : Nat := 7

/-- Modelled from the spec: see `STUB_OP_SOCKET`. -/
def STUB_OP_WRITE : Nat := 8

/-- Modelled from the spec: see `STUB_OP_SOCKET`. -/
def STUB_OP_READ : Nat := 9

/-- Modelled from the spec: see `STUB_OP_SOCKET`. -/
def STUB_OP_GETADDRINFO : Nat := 10

/-- Modelled from the spec: see `STUB_OP_SOCKET`. -/
def STUB_OP_FREEADDRINFO : Nat := 11

/-- The operation codes that appear as cases of the `switch` in
`TsSockSkelDaemon`. -/
def recognizedOp (c : Nat) : Bool :=
  c = STUB_OP_SOCKET || c = STUB_OP_CONNECT || c = STUB_OP_CLOSE || c = STUB_OP_RECV ||
  c = STUB_OP_SEND || c = STUB_OP_SELECT || c = STUB_OP_BIND || c = STUB_OP_LISTEN ||
  c = STUB_OP_WRITE || c = STUB_OP_READ || c = STUB_OP_GETADDRINFO ||
  c = STUB_OP_FREEADDRINFO

/-- One iteration of the worker loop `TsSockSkelDaemon`: receive a dispatched
descriptor from the FIFO, switch on `stub_op_code`, run the matching handler;
on an unrecognized code the `default` branch does nothing (no handler, no
event, and in particular no `chFifoReturnObject`). -/
def dispatchOnce (env : Env) (d : SkelReq) : HRes :=
  let r : HRes :=
    match d.stub_op_code with
    | 0 => l_socket env d
    | 1 => l_connect env d
    | 2 => l_close env d
    | 3 => l_recv env d
    | 4 => l_send env d
    | 5 => l_select env d
    | 6 => l_bind env d
    | 7 => l_listen env d
    | 8 => l_write env d
    | 9 => l_read env d
    | 10 => l_getaddrinfo env d
    | 11 => l_freeaddrinfo env d
    | _ => ([], d, false)
  (Event.fifoRecvMsg :: r.1, r.2)

/-- One drain iteration of the inner `while` of `TsSkelsDaemon`: take a slot,
set `req := SKEL_REQ_GETOP`, invoke under the mutex, assert not BUSY; on
`SMC_SVC_NHND` break out and return the slot; otherwise send the populated
descriptor to a worker. The second component says whether draining
continues. -/
def getOpOnce (st : Status) (d : SkelReq) : List Event × Bool :=
  let d1 := { d with req := Phase.GETOP }
  if st = Status.busy then
    ([Event.fifoTake, Event.mtxLock, Event.invoke Phase.GETOP d1 st, Event.assertBusyFail],
      false)
  else if st = Status.nhnd then
    ([Event.fifoTake, Event.mtxLock, Event.invoke Phase.GETOP d1 st, Event.mtxUnlock,
      Event.fifoReturn], false)
  else
    ([Event.fifoTake, Event.mtxLock, Event.invoke Phase.GETOP d1 st, Event.mtxUnlock,
      Event.fifoSend], true)

/-- The startup phase of `TsSkelsDaemon` before the drain loop: register for
events, discover the stubs service on `TS_HND_DISCOVERY`, take a slot, invoke
the READY handshake on the discovered service handle, return the slot. Neither
the discovery nor the READY invocation locks `tsStubsServiceMtx` or checks the
returned status against `SMC_SVC_BUSY`. -/
def tsSkelsDaemonStartup (readySt : Status) (d : SkelReq) : List Event :=
  [Event.evtRegister,
   Event.invokeDiscovery,
   Event.fifoTake,
   Event.invoke Phase.READY { d with req := Phase.READY } readySt,
   Event.fifoReturn]

/-- Is the event an invocation of the stubs service (any phase)? The startup
discovery call is an invocation too, on the discovery handle. -/
def isInvoke : Event → Bool
  | .invoke _ _ _ => true
  | .invokeDiscovery => true
  | _ => false

/-- Is the event a copy-out (`SKEL_REQ_PUTRES`) invocation? -/
def isPutres : Event → Bool
  | .invoke .PUTRES _ _ => true
  | _ => false

/-- Is the event a copy-in (`SKEL_REQ_CPYPRMS`) invocation? -/
def isCpyprms : Event → Bool
  | .invoke .CPYPRMS _ _ => true
  | _ => false

/-- Is the event a call to a network-stack primitive? -/
def isNetCall : Event → Bool
  | .netCall _ _ => true
  | _ => false

/-- Is the event a `chFifoReturnObject` (slot released to the pool)? -/
def isFifoReturn : Event → Bool
  | .fifoReturn => true
  | _ => false

/-- Is the event a `chHeapFree`? -/
def isHeapFree : Event → Bool
  | .heapFree => true
  | _ => false

/-- Is the event a fatal `chDbgAssert` firing on `SMC_SVC_BUSY`? -/
def isAssertFail : Event → Bool
  | .assertBusyFail => true
  | _ => false

/-- Is the event a service invocation that returned `SMC_SVC_BUSY`? -/
def isBusyInvoke : Event → Bool
  | .invoke _ _ .busy => true
  | _ => false

/-- Descriptor snapshots passed to the copy-out (`PUTRES`) invocations of a
trace, in order. -/
def putresSnapshots (t : List Event) : List SkelReq :=
  t.filterMap fun e =>
    match e with
    | .invoke .PUTRES d _ => some d
    | _ => none

/-- Descriptor snapshots passed to the copy-in (`CPYPRMS`) invocations of a
trace, in order. -/
def cpySnapshots (t : List Event) : List SkelReq :=
  t.filterMap fun e =>
    match e with
    | .invoke .CPYPRMS d _ => some d
    | _ => none

/-- The network-stack primitive calls of a trace, with their arguments, in
order. -/
def netCalls (t : List Event) : List NetPrim :=
  t.filterMap fun e =>
    match e with
    | .netCall pr _ => some pr
    | _ => none

/-- The heap allocations of a trace: requested length and success flag. -/
def allocs (t : List Event) : List (Nat × Bool) :=
  t.filterMap fun e =>
    match e with
    | .heapAlloc len ok => some (len, ok)
    | _ => none

/-- Scans a trace tracking whether `tsStubsServiceMtx` is held and checks that
every service invocation (including the discovery call) happens while it is
held. The argument is the initial lock state. -/
def invokesLocked : List Event → Bool → Bool
  | [], _ => true
  | Event.mtxLock :: t, _ => invokesLocked t true
  | Event.mtxUnlock :: t, _ => invokesLocked t false
  | Event.invoke _ _ _ :: t, held => held && invokesLocked t held
  | Event.invokeDiscovery :: t, held => held && invokesLocked t held
  | _ :: t, held => invokesLocked t held

/-- Scans a trace checking that every network-primitive call is preceded by a
completed copy-in invocation; the argument is whether a copy-in has already
occurred. -/
def netAfterCpyin : List Event → Bool → Bool
  | [], _ => true
  | Event.invoke Phase.CPYPRMS _ _ :: t, _ => netAfterCpyin t true
  | Event.netCall _ _ :: t, done => done && netAfterCpyin t done
  | _ :: t, done => netAfterCpyin t done

/-- Scans a trace checking that no network-primitive call occurs after a
copy-out invocation; the argument is whether a copy-out has already
occurred. -/
def noNetAfterPutres : List Event → Bool → Bool
  | [], _ => true
  | Event.invoke Phase.PUTRES _ _ :: t, _ => noNetAfterPutres t true
  | Event.netCall _ _ :: t, seen => !seen && noNetAfterPutres t seen
  | _ :: t, seen => noNetAfterPutres t seen

/-- Scans a trace checking that every `chHeapFree` occurs after a copy-out
invocation has been seen; the argument is whether a copy-out has already
occurred. -/
def freeOnlyAfterPutres : List Event → Bool → Bool
  | [], _ => true
  | Event.invoke Phase.PUTRES _ _ :: t, _ => freeOnlyAfterPutres t true
  | Event.heapFree :: t, seen => seen && freeOnlyAfterPutres t seen
  | _ :: t, seen => freeOnlyAfterPutres t seen

/-- Scans a trace checking that every `chHeapFree` occurs before any copy-out
invocation; the argument is whether a copy-out has already occurred. -/
def freeOnlyBeforePutres : List Event → Bool → Bool
  | [], _ => true
  | Event.invoke Phase.PUTRES _ _ :: t, _ => freeOnlyBeforePutres t true
  | Event.heapFree :: t, seen => !seen && freeOnlyBeforePutres t seen
  | _ :: t, seen => freeOnlyBeforePutres t seen

/-- A concrete incoming descriptor used for counterexample evaluations: all
slots scalar words, as the untrusted side populates them. -/
def d0 : SkelReq :=
  { stub_op_code := STUB_OP_SOCKET,
    p0 := Val.word 3, p1 := Val.word 0, p2 := Val.word 16, p3 := Val.word 0,
    p4 := Val.word 0,
    sz0 := 0, sz1 := 0, sz2 := 0, sz3 := 0, sz4 := 0,
    req := Phase.GETOP, stub_op_result := 0 }

/-- A nominal environment: both invocations accepted, allocation succeeds,
network primitive returns 0. -/
def envNom : Env :=
  { cpySt := Status.svcOk 0, putSt := Status.svcOk 0, allocOk := true, netRet := 0 }

/-- The incoming descriptor `d0` with an operation code that is not a case of
the dispatch switch. -/
def dBad : SkelReq :=
  { d0 with stub_op_code := 100 }

/-- The nominal environment with `chHeapAlloc` failing. -/
def envAllocFail : Env :=
  { envNom with allocOk := false }

/-- C2: on an operation code absent from the dispatch table (here 100), the
worker invokes no handler and delivers no result across the boundary (no
service invocation at all), but — against the claim — it also never returns
the descriptor slot to the pool: the trace contains no `chFifoReturnObject`
event, so the slot leaks. -/
theorem c2_unrecognized_code_leaks_slot :
    recognizedOp 100 = false ∧
    (dispatchOnce envNom dBad).1 = [Event.fifoRecvMsg] ∧
    List.countP isNetCall (dispatchOnce envNom dBad).1 = 0 ∧
    List.countP isInvoke (dispatchOnce envNom dBad).1 = 0 ∧
    List.countP isFifoReturn (dispatchOnce envNom dBad).1 = 0 := by
  decide

/-- C10: `l_getaddrinfo` makes its copy-in invocation with the addresses of the
single-byte locals `nodename` and `servname` in slots 0 and 1, `&hints` in
slot 2, `&res` in slot 3, and with only size field 3 set (to `sizeof` a
pointer); size fields 0..2 keep whatever values the untrusted side supplied in
the incoming descriptor `d`. -/
theorem c10_getaddrinfo_marshaling_slots :
    ∀ (env : Env) (d : SkelReq),
      cpySnapshots (l_getaddrinfo env d).1 =
        [{ d with p0 := Val.addr LocalVar.nodenameV, p1 := Val.addr LocalVar.servnameV,
                  p2 := Val.addr LocalVar.hintsV, sz3 := sizeofPtr,
                  p3 := Val.addr LocalVar.resV, req := Phase.CPYPRMS }] ∧
      (∀ x ∈ cpySnapshots (l_getaddrinfo env d).1,
        x.sz0 = d.sz0 ∧ x.sz1 = d.sz1 ∧ x.sz2 = d.sz2 ∧ x.sz3 = sizeofPtr) ∧
      LocalVar.byteSize LocalVar.nodenameV = 1 ∧
      LocalVar.byteSize LocalVar.servnameV = 1 ∧
      LocalVar.byteSize LocalVar.resV = sizeofPtr := by
  intro env d
  obtain ⟨cs, ps, a, n⟩ := env
  cases cs <;> cases ps <;>
    simp [l_getaddrinfo, paramsInFromRemote, returnToRemote, cpySnapshots,
      LocalVar.byteSize]

/-- C1 counterexample: the startup phase of `TsSkelsDaemon` performs the
discovery invocation and the READY-handshake invocation on the stubs service
without holding `tsStubsServiceMtx`: the trace contains two invocations and
fails the every-invoke-under-the-lock scan. -/
theorem c1_startup_invokes_unlocked :
    List.countP isInvoke (tsSkelsDaemonStartup (Status.svcOk 0) d0) = 2 ∧
    invokesLocked (tsSkelsDaemonStartup (Status.svcOk 0) d0) false = false := by
  decide

/-- C1 amended: every invocation made through `paramsInFromRemote`,
`returnToRemote` (hence by every dispatched handler) and by the GETOP drain
iteration is performed while holding `tsStubsServiceMtx`, the lock being taken
just before and released just after that one invoke; only the one-time startup
discovery and READY invocations are made without the lock. -/
theorem invokesLocked_l_socket (env : Env) (d : SkelReq) :
    invokesLocked (l_socket env d).1 false = true := by
  obtain ⟨cs, ps, a, n⟩ := env
  cases ps <;> simp [l_socket, returnToRemote, invokesLocked]

theorem invokesLocked_l_connect (env : Env) (d : SkelReq) :
    invokesLocked (l_connect env d).1 false = true := by
  obtain ⟨cs, ps, a, n⟩ := env
  cases cs <;> cases ps <;>
    simp [l_connect, paramsInFromRemote, returnToRemote, invokesLocked]

theorem invokesLocked_l_close (env : Env) (d : SkelReq) :
    invokesLocked (l_close env d).1 false = true := by
  obtain ⟨cs, ps, a, n⟩ := env
  cases ps <;> simp [l_close, returnToRemote, invokesLocked]

theorem invokesLocked_l_recv (env : Env) (d : SkelReq) :
    invokesLocked (l_recv env d).1 false = true := by
  obtain ⟨cs, ps, a, n⟩ := env
  cases ps <;> cases a <;> simp [l_recv, returnToRemote, invokesLocked]

theorem invokesLocked_l_send (env : Env) (d : SkelReq) :
    invokesLocked (l_send env d).1 false = true := by
  obtain ⟨cs, ps, a, n⟩ := env
  cases cs <;> cases ps <;> cases a <;>
    simp [l_send, paramsInFromRemote, returnToRemote, invokesLocked]

theorem invokesLocked_l_select (env : Env) (d : SkelReq) :
    invokesLocked (l_select env d).1 false = true := by
  obtain ⟨cs, ps, a, n⟩ := env
  cases cs <;> cases ps <;>
    simp [l_select, paramsInFromRemote, returnToRemote, invokesLocked]

theorem invokesLocked_l_bind (env : Env) (d : SkelReq) :
    invokesLocked (l_bind env d).1 false = true := by
  obtain ⟨cs, ps, a, n⟩ := env
  cases cs <;> cases ps <;>
    simp [l_bind, paramsInFromRemote, returnToRemote, invokesLocked]

theorem invokesLocked_l_listen (env : Env) (d : SkelReq) :
    invokesLocked (l_listen env d).1 false = true := by
  obtain ⟨cs, ps, a, n⟩ := env
  cases ps <;> simp [l_listen, returnToRemote, invokesLocked]

theorem invokesLocked_l_write (env : Env) (d : SkelReq) :
    invokesLocked (l_write env d).1 false = true := by
  obtain ⟨cs, ps, a, n⟩ := env
  cases cs <;> cases ps <;> cases a <;>
    simp [l_write, paramsInFromRemote, returnToRemote, invokesLocked]

theorem invokesLocked_l_read (env : Env) (d : SkelReq) :
    invokesLocked (l_read env d).1 false = true := by
  obtain ⟨cs, ps, a, n⟩ := env
  cases ps <;> cases a <;> simp [l_read, returnToRemote, invokesLocked]

theorem invokesLocked_l_getaddrinfo (env : Env) (d : SkelReq) :
    invokesLocked (l_getaddrinfo env d).1 false = true := by
  obtain ⟨cs, ps, a, n⟩ := env
  cases cs <;> cases ps <;>
    simp [l_getaddrinfo, paramsInFromRemote, returnToRemote, invokesLocked]

theorem invokesLocked_l_freeaddrinfo (env : Env) (d : SkelReq) :
    invokesLocked (l_freeaddrinfo env d).1 false = true := by
  obtain ⟨cs, ps, a, n⟩ := env
  cases cs <;> cases ps <;>
    simp [l_freeaddrinfo, paramsInFromRemote, returnToRemote, invokesLocked]

theorem invokesLocked_fifoRecvMsg (t : List Event) (b : Bool) :
    invokesLocked (Event.fifoRecvMsg :: t) b = invokesLocked t b := rfl

theorem c1_worker_invokes_locked :
    ∀ (env : Env) (d : SkelReq) (st : Status),
      invokesLocked (dispatchOnce env d).1 false = true ∧
      invokesLocked (getOpOnce st d).1 false = true := by
  intro env d st
  refine ⟨?_, ?_⟩
  · unfold dispatchOnce
    rw [invokesLocked_fifoRecvMsg]
    split
    · exact invokesLocked_l_socket env d
    · exact invokesLocked_l_connect env d
    · exact invokesLocked_l_close env d
    · exact invokesLocked_l_recv env d
    · exact invokesLocked_l_send env d
    · exact invokesLocked_l_select env d
    · exact invokesLocked_l_bind env d
    · exact invokesLocked_l_listen env d
    · exact invokesLocked_l_write env d
    · exact invokesLocked_l_read env d
    · exact invokesLocked_l_getaddrinfo env d
    · exact invokesLocked_l_freeaddrinfo env d
    · rfl
  · cases st <;> simp [getOpOnce, invokesLocked]

/-- C6 counterexample: the READY-handshake invocation at startup performs no
BUSY check at all: with the service reporting `SMC_SVC_BUSY`, the startup
trace contains one BUSY invocation and no `chDbgAssert` failure, and execution
continues (the slot is still returned), so BUSY does not terminate the program
on this invocation path. -/
theorem c6_ready_busy_not_fatal :
    List.countP isBusyInvoke (tsSkelsDaemonStartup Status.busy d0) = 1 ∧
    List.countP isAssertFail (tsSkelsDaemonStartup Status.busy d0) = 0 ∧
    List.countP isFifoReturn (tsSkelsDaemonStartup Status.busy d0) = 1 := by
  decide

/-- C6 amended: on the three serialized invocation paths — copy-in
(`paramsInFromRemote`), copy-out (`returnToRemote`) and the GETOP drain
iteration — a `SMC_SVC_BUSY` status makes `chDbgAssert` fire fatally: the
trace ends at the assertion, contains exactly that one invocation (BUSY is
never retried), and, for copy-out, the slot is never returned; the startup
discovery and READY invocations perform no such check. -/
theorem c6_busy_asserts_on_serialized_paths :
    ∀ (d : SkelReq) (res : Nat),
      ((paramsInFromRemote Status.busy d).1.getLast? = some Event.assertBusyFail ∧
       List.countP isInvoke (paramsInFromRemote Status.busy d).1 = 1 ∧
       (paramsInFromRemote Status.busy d).2.2 = true) ∧
      ((returnToRemote Status.busy d res).1.getLast? = some Event.assertBusyFail ∧
       List.countP isInvoke (returnToRemote Status.busy d res).1 = 1 ∧
       (returnToRemote Status.busy d res).2.2 = true ∧
       List.countP isFifoReturn (returnToRemote Status.busy d res).1 = 0) ∧
      ((getOpOnce Status.busy d).1.getLast? = some Event.assertBusyFail ∧
       List.countP isInvoke (getOpOnce Status.busy d).1 = 1 ∧
       (getOpOnce Status.busy d).2 = false) := by
  intro d res
  simp [paramsInFromRemote, returnToRemote, getOpOnce, isInvoke, isFifoReturn]

theorem c3h_socket (env : Env) (d : SkelReq) (hp : env.putSt ≠ Status.busy) :
    List.countP isPutres (l_socket env d).1 = 1 ∧
    List.countP isFifoReturn (l_socket env d).1 = 1 ∧ (l_socket env d).2.2 = false := by
  simp [l_socket, returnToRemote, hp, isPutres, isFifoReturn]

theorem c3h_connect (env : Env) (d : SkelReq) (hc : env.cpySt ≠ Status.busy)
    (hp : env.putSt ≠ Status.busy) :
    List.countP isPutres (l_connect env d).1 = 1 ∧
    List.countP isFifoReturn (l_connect env d).1 = 1 ∧ (l_connect env d).2.2 = false := by
  simp [l_connect, paramsInFromRemote, returnToRemote, hc, hp, isPutres, isFifoReturn]

theorem c3h_close (env : Env) (d : SkelReq) (hp : env.putSt ≠ Status.busy) :
    List.countP isPutres (l_close env d).1 = 1 ∧
    List.countP isFifoReturn (l_close env d).1 = 1 ∧ (l_close env d).2.2 = false := by
  simp [l_close, returnToRemote, hp, isPutres, isFifoReturn]

theorem c3h_recv (env : Env) (d : SkelReq) (hp : env.putSt ≠ Status.busy) :
    List.countP isPutres (l_recv env d).1 = 1 ∧
    List.countP isFifoReturn (l_recv env d).1 = 1 ∧ (l_recv env d).2.2 = false := by
  obtain ⟨cs, ps, a, n⟩ := env
  replace hp : ps ≠ Status.busy := hp
  cases a <;> simp [l_recv, returnToRemote, hp, isPutres, isFifoReturn]

theorem c3h_send (env : Env) (d : SkelReq) (hc : env.cpySt ≠ Status.busy)
    (hp : env.putSt ≠ Status.busy) :
    List.countP isPutres (l_send env d).1 = 1 ∧
    List.countP isFifoReturn (l_send env d).1 = 1 ∧ (l_send env d).2.2 = false := by
  obtain ⟨cs, ps, a, n⟩ := env
  replace hc : cs ≠ Status.busy := hc
  replace hp : ps ≠ Status.busy := hp
  cases a <;>
    simp [l_send, paramsInFromRemote, returnToRemote, hc, hp, isPutres, isFifoReturn]

theorem c3h_select (env : Env) (d : SkelReq) (hc : env.cpySt ≠ Status.busy)
    (hp : env.putSt ≠ Status.busy) :
    List.countP isPutres (l_select env d).1 = 1 ∧
    List.countP isFifoReturn (l_select env d).1 = 1 ∧ (l_select env d).2.2 = false := by
  simp [l_select, paramsInFromRemote, returnToRemote, hc, hp, isPutres, isFifoReturn]

theorem c3h_bind (env : Env) (d : SkelReq) (hc : env.cpySt ≠ Status.busy)
    (hp : env.putSt ≠ Status.busy) :
    List.countP isPutres (l_bind env d).1 = 1 ∧
    List.countP isFifoReturn (l_bind env d).1 = 1 ∧ (l_bind env d).2.2 = false := by
  simp [l_bind, paramsInFromRemote, returnToRemote, hc, hp, isPutres, isFifoReturn]

theorem c3h_listen (env : Env) (d : SkelReq) (hp : env.putSt ≠ Status.busy) :
    List.countP isPutres (l_listen env d).1 = 1 ∧
    List.countP isFifoReturn (l_listen env d).1 = 1 ∧ (l_listen env d).2.2 = false := by
  simp [l_listen, returnToRemote, hp, isPutres, isFifoReturn]

theorem c3h_write (env : Env) (d : SkelReq) (hc : env.cpySt ≠ Status.busy)
    (hp : env.putSt ≠ Status.busy) :
    List.countP isPutres (l_write env d).1 = 1 ∧
    List.countP isFifoReturn (l_write env d).1 = 1 ∧ (l_write env d).2.2 = false := by
  obtain ⟨cs, ps, a, n⟩ := env
  replace hc : cs ≠ Status.busy := hc
  replace hp : ps ≠ Status.busy := hp
  cases a <;>
    simp [l_write, paramsInFromRemote, returnToRemote, hc, hp, isPutres, isFifoReturn]

theorem c3h_read (env : Env) (d : SkelReq) (hp : env.putSt ≠ Status.busy) :
    List.countP isPutres (l_read env d).1 = 1 ∧
    List.countP isFifoReturn (l_read env d).1 = 1 ∧ (l_read env d).2.2 = false := by
  obtain ⟨cs, ps, a, n⟩ := env
  replace hp : ps ≠ Status.busy := hp
  cases a <;> simp [l_read, returnToRemote, hp, isPutres, isFifoReturn]

theorem c3h_getaddrinfo (env : Env) (d : SkelReq) (hc : env.cpySt ≠ Status.busy)
    (hp : env.putSt ≠ Status.busy) :
    List.countP isPutres (l_getaddrinfo env d).1 = 1 ∧
    List.countP isFifoReturn (l_getaddrinfo env d).1 = 1 ∧
    (l_getaddrinfo env d).2.2 = false := by
  simp [l_getaddrinfo, paramsInFromRemote, returnToRemote, hc, hp, isPutres, isFifoReturn]

theorem c3h_freeaddrinfo (env : Env) (d : SkelReq) (hc : env.cpySt ≠ Status.busy)
    (hp : env.putSt ≠ Status.busy) :
    List.countP isPutres (l_freeaddrinfo env d).1 = 1 ∧
    List.countP isFifoReturn (l_freeaddrinfo env d).1 = 1 ∧
    (l_freeaddrinfo env d).2.2 = false := by
  simp [l_freeaddrinfo, paramsInFromRemote, returnToRemote, hc, hp, isPutres, isFifoReturn]

/-- C3: provided the serialization discipline holds (no invocation reports
BUSY, so `chDbgAssert` never fires), every recognized-operation handler makes
exactly one copy-out (`PUTRES`) invocation through `returnToRemote` and
releases the descriptor slot back to the pool (`chFifoReturnObject`) exactly
once — no double-release, no leak — on every execution path, including the
allocation-failure paths of `l_recv`, `l_send`, `l_write`, `l_read`. -/
theorem c3_one_copyout_one_release :
    ∀ (env : Env) (d : SkelReq),
      env.cpySt ≠ Status.busy → env.putSt ≠ Status.busy →
      (List.countP isPutres (l_socket env d).1 = 1 ∧
       List.countP isFifoReturn (l_socket env d).1 = 1 ∧ (l_socket env d).2.2 = false) ∧
      (List.countP isPutres (l_connect env d).1 = 1 ∧
       List.countP isFifoReturn (l_connect env d).1 = 1 ∧ (l_connect env d).2.2 = false) ∧
      (List.countP isPutres (l_close env d).1 = 1 ∧
       List.countP isFifoReturn (l_close env d).1 = 1 ∧ (l_close env d).2.2 = false) ∧
      (List.countP isPutres (l_recv env d).1 = 1 ∧
       List.countP isFifoReturn (l_recv env d).1 = 1 ∧ (l_recv env d).2.2 = false) ∧
      (List.countP isPutres (l_send env d).1 = 1 ∧
       List.countP isFifoReturn (l_send env d).1 = 1 ∧ (l_send env d).2.2 = false) ∧
      (List.countP isPutres (l_select env d).1 = 1 ∧
       List.countP isFifoReturn (l_select env d).1 = 1 ∧ (l_select env d).2.2 = false) ∧
      (List.countP isPutres (l_bind env d).1 = 1 ∧
       List.countP isFifoReturn (l_bind env d).1 = 1 ∧ (l_bind env d).2.2 = false) ∧
      (List.countP isPutres (l_listen env d).1 = 1 ∧
       List.countP isFifoReturn (l_listen env d).1 = 1 ∧ (l_listen env d).2.2 = false) ∧
      (List.countP isPutres (l_write env d).1 = 1 ∧
       List.countP isFifoReturn (l_write env d).1 = 1 ∧ (l_write env d).2.2 = false) ∧
      (List.countP isPutres (l_read env d).1 = 1 ∧
       List.countP isFifoReturn (l_read env d).1 = 1 ∧ (l_read env d).2.2 = false) ∧
      (List.countP isPutres (l_getaddrinfo env d).1 = 1 ∧
       List.countP isFifoReturn (l_getaddrinfo env d).1 = 1 ∧
       (l_getaddrinfo env d).2.2 = false) ∧
      (List.countP isPutres (l_freeaddrinfo env d).1 = 1 ∧
       List.countP isFifoReturn (l_freeaddrinfo env d).1 = 1 ∧
       (l_freeaddrinfo env d).2.2 = false) := by
  intro env d hc hp
  exact ⟨c3h_socket env d hp, c3h_connect env d hc hp, c3h_close env d hp,
    c3h_recv env d hp, c3h_send env d hc hp, c3h_select env d hc hp,
    c3h_bind env d hc hp, c3h_listen env d hp, c3h_write env d hc hp,
    c3h_read env d hp, c3h_getaddrinfo env d hc hp, c3h_freeaddrinfo env d hc hp⟩

/-- C3 witness: the property instantiated at the nominal environment and the
concrete descriptor `d0`. -/
theorem c3_witness :
    envNom.cpySt ≠ Status.busy ∧ envNom.putSt ≠ Status.busy ∧
    List.countP isPutres (l_socket envNom d0).1 = 1 ∧
    List.countP isFifoReturn (l_socket envNom d0).1 = 1 :=
  ⟨by decide, by decide,
   (c3_one_copyout_one_release envNom d0 (by decide) (by decide)).1.1,
   (c3_one_copyout_one_release envNom d0 (by decide) (by decide)).1.2.1⟩

/-- C4: in every handler with copy-in parameters (`connect`, `bind`, `send`,
`write`, `select`, `getaddrinfo`, `freeaddrinfo`), whatever the environment
does, the network-stack primitive is only ever called after the copy-in
invocation has completed, and no primitive call occurs after the copy-out
invocation: within one descriptor lifetime the order is copy-in, primitive,
copy-out. -/
theorem c4_copyin_before_primitive_before_copyout :
    ∀ (env : Env) (d : SkelReq),
      (netAfterCpyin (l_connect env d).1 false = true ∧
       noNetAfterPutres (l_connect env d).1 false = true) ∧
      (netAfterCpyin (l_bind env d).1 false = true ∧
       noNetAfterPutres (l_bind env d).1 false = true) ∧
      (netAfterCpyin (l_send env d).1 false = true ∧
       noNetAfterPutres (l_send env d).1 false = true) ∧
      (netAfterCpyin (l_write env d).1 false = true ∧
       noNetAfterPutres (l_write env d).1 false = true) ∧
      (netAfterCpyin (l_select env d).1 false = true ∧
       noNetAfterPutres (l_select env d).1 false = true) ∧
      (netAfterCpyin (l_getaddrinfo env d).1 false = true ∧
       noNetAfterPutres (l_getaddrinfo env d).1 false = true) ∧
      (netAfterCpyin (l_freeaddrinfo env d).1 false = true ∧
       noNetAfterPutres (l_freeaddrinfo env d).1 false = true) := by
  intro env d
  obtain ⟨cs, ps, a, n⟩ := env
  cases cs <;> cases ps <;> cases a <;>
    simp [l_connect, l_bind, l_send, l_write, l_select, l_getaddrinfo, l_freeaddrinfo,
      paramsInFromRemote, returnToRemote, netAfterCpyin, noNetAfterPutres]

/-- C5: when buffer allocation fails in `l_recv`, the handler reports `ENOMEM`
through the one normal copy-out invocation (whose descriptor snapshot carries
result `ENOMEM`), calls no network primitive, frees nothing, releases the slot
exactly once, does not halt, and leaves parameter slot 1 and size field 1
exactly as the untrusted side supplied them. -/
theorem c5_recv_alloc_failure_enomem :
    ∀ (env : Env) (d : SkelReq),
      env.allocOk = false → env.putSt ≠ Status.busy →
      putresSnapshots (l_recv env d).1 =
        [{ d with stub_op_result := ENOMEM, req := Phase.PUTRES }] ∧
      (∀ x ∈ putresSnapshots (l_recv env d).1, x.p1 = d.p1 ∧ x.sz1 = d.sz1) ∧
      allocs (l_recv env d).1 = [(d.p2.toNat, false)] ∧
      List.countP isNetCall (l_recv env d).1 = 0 ∧
      List.countP isHeapFree (l_recv env d).1 = 0 ∧
      List.countP isFifoReturn (l_recv env d).1 = 1 ∧
      (l_recv env d).2.2 = false := by
  intro env d ha hp
  simp [l_recv, returnToRemote, ha, hp, putresSnapshots, allocs, isNetCall, isHeapFree,
    isFifoReturn]

/-- C5 witness: allocation failure at the nominal descriptor `d0`. -/
theorem c5_witness :
    envAllocFail.allocOk = false ∧ envAllocFail.putSt ≠ Status.busy ∧
    putresSnapshots (l_recv envAllocFail d0).1 =
      [{ d0 with stub_op_result := ENOMEM, req := Phase.PUTRES }] ∧
    List.countP isNetCall (l_recv envAllocFail d0).1 = 0 :=
  ⟨rfl, by decide,
   (c5_recv_alloc_failure_enomem envAllocFail d0 rfl (by decide)).1,
   (c5_recv_alloc_failure_enomem envAllocFail d0 rfl (by decide)).2.2.2.1⟩

/-- C7: on the successful path of `l_recv` with fd, length and flags supplied
in slots 0, 2 and 3, the full trace is: allocation of a buffer of exactly the
requested length, `recv` called with exactly those fd/buffer/length/flags,
then one copy-out whose snapshot carries size field 1 = the byte count `recv`
returned, slot 1 = the buffer address and result = `recv`'s return value, and
the buffer freed only after `returnToRemote` (including the slot release)
returned. -/
theorem c7_recv_success_end_to_end :
    ∀ (env : Env) (d : SkelReq) (fd len flags : Nat),
      env.allocOk = true → env.putSt ≠ Status.busy →
      d.p0 = Val.word fd → d.p2 = Val.word len → d.p3 = Val.word flags →
      (l_recv env d).1 =
        [Event.heapAlloc len true,
         Event.netCall (NetPrim.recv fd (Val.addr LocalVar.heapBufV) len flags) env.netRet,
         Event.mtxLock,
         Event.invoke Phase.PUTRES
           { d with sz1 := env.netRet, p1 := Val.addr LocalVar.heapBufV,
                    stub_op_result := env.netRet, req := Phase.PUTRES } env.putSt,
         Event.mtxUnlock, Event.fifoReturn, Event.heapFree] ∧
      netCalls (l_recv env d).1 =
        [NetPrim.recv fd (Val.addr LocalVar.heapBufV) len flags] ∧
      allocs (l_recv env d).1 = [(len, true)] ∧
      putresSnapshots (l_recv env d).1 =
        [{ d with sz1 := env.netRet, p1 := Val.addr LocalVar.heapBufV,
                  stub_op_result := env.netRet, req := Phase.PUTRES }] ∧
      List.countP isHeapFree (l_recv env d).1 = 1 ∧
      freeOnlyAfterPutres (l_recv env d).1 false = true ∧
      (l_recv env d).2.2 = false := by
  intro env d fd len flags ha hp h0 h2 h3
  simp [l_recv, returnToRemote, ha, hp, h0, h2, h3, Val.toNat, netCalls, allocs,
    putresSnapshots, isHeapFree, freeOnlyAfterPutres]

/-- C7 witness: a receive of 16 bytes on fd 3 with flags 0 in the nominal
environment. -/
theorem c7_witness :
    envNom.allocOk = true ∧ envNom.putSt ≠ Status.busy ∧
    d0.p0 = Val.word 3 ∧ d0.p2 = Val.word 16 ∧ d0.p3 = Val.word 0 ∧
    netCalls (l_recv envNom d0).1 =
      [NetPrim.recv 3 (Val.addr LocalVar.heapBufV) 16 0] :=
  ⟨rfl, by decide, rfl, rfl, rfl,
   (c7_recv_success_end_to_end envNom d0 3 16 0 rfl (by decide) rfl rfl rfl).2.1⟩

/-- C8: `l_connect` and `l_bind` make their copy-in invocation with the
address of the fixed-size local `struct sockaddr` in slot 1 while size field 1
still holds whatever value the untrusted side supplied (it is never written,
in particular never bounded by `sizeof (struct sockaddr)`), and the socklen
passed to the `connect`/`bind` primitive is the scalar read from slot 2 of the
incoming descriptor, before copy-in. -/
theorem c8_connect_bind_size_unbounded :
    ∀ (env : Env) (d : SkelReq),
      env.cpySt ≠ Status.busy →
      cpySnapshots (l_connect env d).1 =
        [{ d with p1 := Val.addr LocalVar.sockaddrV, req := Phase.CPYPRMS }] ∧
      cpySnapshots (l_bind env d).1 =
        [{ d with p1 := Val.addr LocalVar.sockaddrV, req := Phase.CPYPRMS }] ∧
      (∀ x ∈ cpySnapshots (l_connect env d).1, x.sz1 = d.sz1) ∧
      (∀ x ∈ cpySnapshots (l_bind env d).1, x.sz1 = d.sz1) ∧
      netCalls (l_connect env d).1 =
        [NetPrim.connect d.p0.toNat (Val.addr LocalVar.sockaddrV) d.p2.toNat] ∧
      netCalls (l_bind env d).1 =
        [NetPrim.bind d.p0.toNat (Val.addr LocalVar.sockaddrV) d.p2.toNat] := by
  intro env d hc
  obtain ⟨cs, ps, a, n⟩ := env
  replace hc : cs ≠ Status.busy := hc
  cases ps <;>
    simp [l_connect, l_bind, paramsInFromRemote, returnToRemote, cpySnapshots, netCalls,
      hc]

/-- C8 witness: connect at the nominal environment and descriptor, with an
untrusted size field left untouched. -/
theorem c8_witness :
    envNom.cpySt ≠ Status.busy ∧
    netCalls (l_connect envNom d0).1 =
      [NetPrim.connect 3 (Val.addr LocalVar.sockaddrV) 16] :=
  ⟨by decide, (c8_connect_bind_size_unbounded envNom d0 (by decide)).2.2.2.2.1⟩

/-- C9: when allocation succeeds and no invocation is BUSY, `l_send` and
`l_write` free their heap buffer strictly before the copy-out invocation while
the copy-out snapshot still carries the freed buffer's address in slot 1; by
contrast `l_recv` and `l_read` free their buffer only after the copy-out
invocation. -/
theorem c9_send_frees_before_copyout :
    ∀ (env : Env) (d : SkelReq),
      env.allocOk = true → env.cpySt ≠ Status.busy → env.putSt ≠ Status.busy →
      (List.countP isHeapFree (l_send env d).1 = 1 ∧
       freeOnlyBeforePutres (l_send env d).1 false = true ∧
       (∀ x ∈ putresSnapshots (l_send env d).1, x.p1 = Val.addr LocalVar.heapBufV)) ∧
      (List.countP isHeapFree (l_write env d).1 = 1 ∧
       freeOnlyBeforePutres (l_write env d).1 false = true ∧
       (∀ x ∈ putresSnapshots (l_write env d).1, x.p1 = Val.addr LocalVar.heapBufV)) ∧
      (List.countP isHeapFree (l_recv env d).1 = 1 ∧
       freeOnlyAfterPutres (l_recv env d).1 false = true) ∧
      (List.countP isHeapFree (l_read env d).1 = 1 ∧
       freeOnlyAfterPutres (l_read env d).1 false = true) := by
  intro env d ha hc hp
  obtain ⟨cs, ps, a, n⟩ := env
  replace ha : a = true := ha
  replace hc : cs ≠ Status.busy := hc
  replace hp : ps ≠ Status.busy := hp
  subst ha
  simp [l_send, l_write, l_recv, l_read, paramsInFromRemote, returnToRemote, hc, hp,
    isHeapFree, freeOnlyBeforePutres, freeOnlyAfterPutres, putresSnapshots]

/-- C9 witness: the free-before versus free-after contrast at the nominal
environment and descriptor. -/
theorem c9_witness :
    envNom.allocOk = true ∧ envNom.cpySt ≠ Status.busy ∧ envNom.putSt ≠ Status.busy ∧
    freeOnlyBeforePutres (l_send envNom d0).1 false = true ∧
    freeOnlyAfterPutres (l_recv envNom d0).1 false = true :=
  ⟨rfl, by decide, by decide,
   (c9_send_frees_before_copyout envNom d0 rfl (by decide) (by decide)).1.2.1,
   (c9_send_frees_before_copyout envNom d0 rfl (by decide) (by decide)).2.2.1.2⟩

end TsSockSkel
